import Mathlib

/-!
Verification of the resilient plan-generation pipeline in
`netlify/functions/generate-plan.js` (the Chat-Completions + JSON-mode +
safe-fallback + test-switch variant, which the specification's claims cite).

The JavaScript is shallowly embedded:
* JS strings are `List Char`;
* JSON documents are `JsValue`; JSON numbers are exact decimal pairs
  `m * 10^e` (`JsNum`), which represents every JSON literal exactly
  (IEEE-754 double rounding is idealised away; no claim depends on it);
* `JSON.parse` is a fuel-based recursive-descent parser of the JSON grammar;
* the handler is a pure function of the environment, the event, and the
  outcomes of the (at most two) backend calls, returned together with the
  list of backend requests it issued, so that "performs no network call"
  and "issues exactly one second call" are statable.
-/

/-- The character `\x7b` (opening curly brace). -/
def lbrace : Char := '\x7b'

/-- The character `\x7d` (closing curly brace). -/
def rbrace : Char := '\x7d'

/-- JSON whitespace characters (space, tab, line feed, carriage return). -/
def isWs (c : Char) : Bool := c = ' ' || c = '\t' || c = '\n' || c = '\r'

/-- Drop leading JSON whitespace. -/
def skipWs : List Char → List Char
  | [] => []
  | c :: cs => if isWs c then skipWs cs else c :: cs

/-- Drop trailing whitespace (helper for `jsTrim`). -/
def trimRight (s : List Char) : List Char := (skipWs s.reverse).reverse

/-- JavaScript `String.prototype.trim` (restricted to ASCII whitespace,
which is all the embedded literals contain). -/
def jsTrim (s : List Char) : List Char := trimRight (skipWs s)

/-- An exact decimal number `mant * 10 ^ exp10`.  Every numeric literal of
the JSON grammar and every arithmetic step of the source (multiplication by
`0.25` / `0.40` / `0.35`, `Math.round`) stays inside this representation. -/
structure JsNum where
  mant : Int
  exp10 : Int
deriving DecidableEq

/-- The decimal for an integer. -/
def intDec (n : Int) : JsNum := ⟨n, 0⟩

/-- Exact product of two decimals. -/
def mulDec (a b : JsNum) : JsNum := ⟨a.mant * b.mant, a.exp10 + b.exp10⟩

/-- JavaScript `Math.round` on an exact decimal: round half toward `+∞`. -/
def jsRound (a : JsNum) : Int :=
  if 0 ≤ a.exp10 then a.mant * (10 : Int) ^ a.exp10.toNat
  else
    let d : Int := (10 : Int) ^ (-a.exp10).toNat
    (2 * a.mant + d).fdiv (2 * d)

/-- A JSON document (the values `JSON.parse` can produce and
`JSON.stringify` consumes).  Object fields are an ordered association list,
mirroring JS property order. -/
inductive JsValue where
  | null
  | bool (b : Bool)
  | num (n : JsNum)
  | str (s : List Char)
  | arr (xs : List JsValue)
  | obj (fields : List (List Char × JsValue))

/-- Property lookup on an object's field list (post-`JSON.parse` objects
have unique keys, so the first match is the property). -/
def lookupField : List (List Char × JsValue) → List Char → Option JsValue
  | [], _ => none
  | (k', v) :: rest, k => if k' = k then some v else lookupField rest k

/-- JavaScript property read `v?.k` / `v.k`: `undefined` (here `none`) on
non-objects and missing keys. -/
def getField (v : JsValue) (k : List Char) : Option JsValue :=
  match v with
  | .obj fs => lookupField fs k
  | _ => none

/-- JavaScript property write `obj[k] = v` on a field list: overwrites the
value in place if the key exists, otherwise appends (JS property order). -/
def setField (fs : List (List Char × JsValue)) (k : List Char) (v : JsValue) :
    List (List Char × JsValue) :=
  match fs with
  | [] => [(k, v)]
  | (k', v') :: rest => if k' = k then (k', v) :: rest else (k', v') :: setField rest k v

/-- JavaScript truthiness of a JSON value (`NaN` cannot occur in a parsed
document, so numbers are falsy exactly when zero). -/
def jsTruthy : JsValue → Bool
  | .null => false
  | .bool b => b
  | .num n => n.mant ≠ 0
  | .str s => s ≠ []
  | .arr _ => true
  | .obj _ => true

/-- JavaScript `a || b` for an optionally-present value (`none` models
`undefined`). -/
def jsOrVal (o : Option JsValue) (d : JsValue) : JsValue :=
  match o with
  | some v => if jsTruthy v then v else d
  | none => d

/-- JavaScript `s || d` for an optionally-present string. -/
def jsOrStr (o : Option (List Char)) (d : List Char) : List Char :=
  match o with
  | some s => if s.isEmpty then d else s
  | none => d

/-- Digit value of a character, if it is `0`..`9`. -/
def digitVal (c : Char) : Option Nat :=
  if '0' ≤ c ∧ c ≤ '9' then some (c.toNat - '0'.toNat) else none

/-- Split off the longest leading run of decimal digits. -/
def spanDigits : List Char → (List Char × List Char)
  | [] => ([], [])
  | c :: cs =>
    if '0' ≤ c ∧ c ≤ '9' then
      let p := spanDigits cs
      (c :: p.1, p.2)
    else ([], c :: cs)

/-- Value of a digit string. -/
def digitsToNat (ds : List Char) : Nat :=
  ds.foldl (fun acc c => 10 * acc + (c.toNat - '0'.toNat)) 0

/-- Hex digit value, if any. -/
def hexVal (c : Char) : Option Nat :=
  if '0' ≤ c ∧ c ≤ '9' then some (c.toNat - '0'.toNat)
  else if 'a' ≤ c ∧ c ≤ 'f' then some (c.toNat - 'a'.toNat + 10)
  else if 'A' ≤ c ∧ c ≤ 'F' then some (c.toNat - 'A'.toNat + 10)
  else none

/-- Body of a JSON string literal after the opening quote: returns the
decoded characters and the remainder after the closing quote.  Handles the
JSON escapes (`\" \\ \/ \b \f \n \r \t \uXXXX`); a `\u` escape becomes the
character of its code point (surrogate-pair recombination is not modelled;
no string in this development uses it).  Raw control characters and bad
escapes are rejected, as in the JSON grammar. -/
def parseStrBody : List Char → Option (List Char × List Char)
  | [] => none
  | c :: cs =>
    if c = '"' then some ([], cs)
    else if c = '\\' then
      match cs with
      | [] => none
      | e :: cs2 =>
        if e = 'u' then
          match cs2 with
          | h1 :: h2 :: h3 :: h4 :: cs3 =>
            match hexVal h1, hexVal h2, hexVal h3, hexVal h4 with
            | some a, some b, some c4, some d =>
              (parseStrBody cs3).map fun p =>
                (Char.ofNat (((a * 16 + b) * 16 + c4) * 16 + d) :: p.1, p.2)
            | _, _, _, _ => none
          | _ => none
        else
          match
            (if e = '"' then some '"'
             else if e = '\\' then some '\\'
             else if e = '/' then some '/'
             else if e = 'b' then some '\x08'
             else if e = 'f' then some '\x0c'
             else if e = 'n' then some '\n'
             else if e = 'r' then some '\r'
             else if e = 't' then some '\t'
             else none) with
          | some d => (parseStrBody cs2).map fun p => (d :: p.1, p.2)
          | none => none
    else if c.toNat < 32 then none
    else (parseStrBody cs).map fun p => (c :: p.1, p.2)

/-- JSON number starting at a sign or digit: grammar
`-? (0 | [1-9][0-9]*) (. [0-9]+)? ([eE][+-]?[0-9]+)?`, evaluated exactly as
a decimal `JsNum`. -/
def parseNum (s : List Char) : Option (JsNum × List Char) :=
  let (neg, s1) : Bool × List Char :=
    match s with
    | '-' :: rest => (true, rest)
    | _ => (false, s)
  match spanDigits s1 with
  | ([], _) => none
  | (ds, rest) =>
    if ds.length > 1 ∧ ds.headI = '0' then none
    else
      let intPart := digitsToNat ds
      let (fracDs, rest2) : List Char × List Char :=
        match rest with
        | '.' :: r => spanDigits r
        | _ => ([], rest)
      if (match rest with | '.' :: _ => fracDs.isEmpty | _ => false) then none
      else
        let rest3 : List Char := match rest with | '.' :: _ => rest2 | _ => rest
        let mant0 : Int := Int.ofNat (intPart * 10 ^ fracDs.length + digitsToNat fracDs)
        let mant : Int := if neg then -mant0 else mant0
        let e0 : Int := -(Int.ofNat fracDs.length)
        match rest3 with
        | c :: r4 =>
          if c = 'e' ∨ c = 'E' then
            let (esign, r5) : Int × List Char :=
              match r4 with
              | '+' :: r => (1, r)
              | '-' :: r => (-1, r)
              | _ => (1, r4)
            match spanDigits r5 with
            | ([], _) => none
            | (eds, r6) => some (⟨mant, e0 + esign * Int.ofNat (digitsToNat eds)⟩, r6)
          else some (⟨mant, e0⟩, c :: r4)
        | [] => some (⟨mant, e0⟩, [])

/-- Does the input start with the given literal?  Returns the remainder. -/
def dropLit : List Char → List Char → Option (List Char)
  | [], s => some s
  | l :: ls, c :: cs => if c = l then dropLit ls cs else none
  | _ :: _, [] => none

mutual

/-- Recursive-descent JSON value parser (ECMA-404 grammar, as implemented
by `JSON.parse`); `fuel` bounds the recursion depth and is instantiated
large enough for the whole input (two fuel units always consume at least
one character). -/
def parseValue : Nat → List Char → Option (JsValue × List Char)
  | 0, _ => none
  | Nat.succ fuel, s =>
    match skipWs s with
    | [] => none
    | c :: cs =>
      if c = '"' then
        (parseStrBody cs).map fun p => (JsValue.str p.1, p.2)
      else if c = '[' then
        match skipWs cs with
        | ']' :: rest => some (JsValue.arr [], rest)
        | s2 => parseElems fuel [] s2
      else if c = lbrace then
        match skipWs cs with
        | d :: rest =>
          if d = rbrace then some (JsValue.obj [], rest)
          else parseMembers fuel [] (d :: rest)
        | [] => none
      else if c = 't' then
        (dropLit ("rue".toList) cs).map fun r => (JsValue.bool true, r)
      else if c = 'f' then
        (dropLit ("alse".toList) cs).map fun r => (JsValue.bool false, r)
      else if c = 'n' then
        (dropLit ("ull".toList) cs).map fun r => (JsValue.null, r)
      else if c = '-' ∨ ('0' ≤ c ∧ c ≤ '9') then
        (parseNum (c :: cs)).map fun p => (JsValue.num p.1, p.2)
      else none

/-- Comma-separated array elements after `[` (first element pending). -/
def parseElems : Nat → List JsValue → List Char → Option (JsValue × List Char)
  | 0, _, _ => none
  | Nat.succ fuel, acc, s =>
    match parseValue fuel s with
    | none => none
    | some (v, rest) =>
      match skipWs rest with
      | ',' :: rest2 => parseElems fuel (acc ++ [v]) rest2
      | ']' :: rest2 => some (JsValue.arr (acc ++ [v]), rest2)
      | _ => none

/-- Comma-separated object members after the opening brace (first member
pending).  A duplicated key keeps its first position but takes the last
value, as in JS. -/
def parseMembers : Nat → List (List Char × JsValue) → List Char →
    Option (JsValue × List Char)
  | 0, _, _ => none
  | Nat.succ fuel, acc, s =>
    match skipWs s with
    | '"' :: cs =>
      match parseStrBody cs with
      | none => none
      | some (k, rest) =>
        match skipWs rest with
        | ':' :: rest2 =>
          match parseValue fuel rest2 with
          | none => none
          | some (v, rest3) =>
            match skipWs rest3 with
            | ',' :: rest4 => parseMembers fuel (setField acc k v) rest4
            | d :: rest4 =>
              if d = rbrace then some (JsValue.obj (setField acc k v), rest4)
              else none
            | [] => none
        | _ => none
    | _ => none

end

/-- `JSON.parse`: parse one JSON value and require only whitespace after
it; `none` models the thrown `SyntaxError`. -/
def jsonParse (s : List Char) : Option JsValue :=
  match parseValue (2 * s.length + 8) s with
  | some (v, rest) => if (skipWs rest).isEmpty then some v else none
  | none => none

/-- JavaScript `text.indexOf(c)`: index of the first occurrence (`none`
models `-1`). -/
def firstIdx (c : Char) : List Char → Option Nat
  | [] => none
  | x :: xs => if x = c then some 0 else (firstIdx c xs).map (· + 1)

/-- JavaScript `text.lastIndexOf(c)`: index of the last occurrence. -/
def lastIdx (c : Char) : List Char → Option Nat
  | [] => none
  | x :: xs =>
    match lastIdx c xs with
    | some n => some (n + 1)
    | none => if x = c then some 0 else none

/-- JavaScript `text.slice(i, j)` for `0 ≤ i < j ≤ text.length`. -/
def jsSlice (t : List Char) (i j : Nat) : List Char := (t.drop i).take (j - i)

/-- Result of `tryParseJSON`: the source's `{ok:true, value}` /
`{ok:false, raw}` record. -/
inductive ParseOut where
  | ok (value : JsValue)
  | fail (raw : List Char)

/-- `tryParseJSON` from the source: direct `JSON.parse`,
then — on failure — salvage the substring from the first `\x7b` to the last
`\x7d` inclusive (when the former strictly precedes the latter), and
otherwise report failure carrying the raw text. -/
def tryParseJSON (text : List Char) : ParseOut :=
  match jsonParse text with
  | some v => ParseOut.ok v
  | none =>
    match firstIdx lbrace text, lastIdx rbrace text with
    | some first, some last =>
      if first < last then
        match jsonParse (jsSlice text first (last + 1)) with
        | some v => ParseOut.ok v
        | none => ParseOut.fail text
      else ParseOut.fail text
    | _, _ => ParseOut.fail text

/-- Decimal digits of a natural number. -/
def natDigits (n : Nat) : List Char := Nat.toDigits 10 n

/-- Decimal rendering of an integer. -/
def intRepr (i : Int) : List Char :=
  if i < 0 then '-' :: natDigits i.natAbs else natDigits i.natAbs

/-- Rendering of an exact decimal the way JS prints the corresponding
number: no exponent for the moderate magnitudes that occur here; a
fractional part is printed after `.` with no trailing zeros.  (JS
shortest-round-trip printing of doubles is idealised to exact decimal
printing; no claim inspects a printed non-integer.) -/
def decRepr (a : JsNum) : List Char :=
  if a.mant = 0 then ['0']
  else if 0 ≤ a.exp10 then intRepr (a.mant * (10 : Int) ^ a.exp10.toNat)
  else
    let k := (-a.exp10).toNat
    let m := a.mant.natAbs
    let m' := if m % 10 ^ k = 0 then m / 10 ^ k else m
    let k' := if m % 10 ^ k = 0 then 0 else k
    let sign : List Char := if a.mant < 0 then ['-'] else []
    if k' = 0 then sign ++ natDigits m'
    else
      let intPart := m' / 10 ^ k'
      let fracPart := m' % 10 ^ k'
      let fracDigits := natDigits fracPart
      let pad := List.replicate (k' - fracDigits.length) '0'
      sign ++ natDigits intPart ++ ['.'] ++ pad ++ fracDigits

/-- JavaScript `Number(v)` on a JSON value; `none` models `NaN`.
Strings go through the numeric-literal grammar (`strToNum` below); arrays
coerce through their joined string form in JS, which is not modelled (the
result here is `NaN`); plain objects are `NaN` in JS as well. -/
def strToNum (s : List Char) : Option JsNum :=
  let t := jsTrim s
  if t.isEmpty then some (intDec 0)
  else
    let (neg, t1) : Bool × List Char :=
      match t with
      | '-' :: r => (true, r)
      | '+' :: r => (false, r)
      | _ => (false, t)
    match spanDigits t1 with
    | ([], _) => none
    | (ds, rest) =>
      let intPart := digitsToNat ds
      let (fracDs, rest2) : List Char × List Char :=
        match rest with
        | '.' :: r => spanDigits r
        | _ => ([], rest)
      let rest3 : List Char := match rest with | '.' :: _ => rest2 | _ => rest
      let mant0 : Int := Int.ofNat (intPart * 10 ^ fracDs.length + digitsToNat fracDs)
      let mant : Int := if neg then -mant0 else mant0
      if rest3.isEmpty then some ⟨mant, -(Int.ofNat fracDs.length)⟩ else none

/-- JavaScript `Number(v)`; `none` is `NaN`.  (Hex/exponent string forms
and array coercion are outside the model; nothing in the pipeline feeds
them to `Number`.) -/
def jsToNum : JsValue → Option JsNum
  | .null => some (intDec 0)
  | .bool b => some (intDec (if b then 1 else 0))
  | .num n => some n
  | .str s => strToNum s
  | .arr _ => none
  | .obj _ => none

theorem sizeOf_mem_lt_arr {x : JsValue} {xs : List JsValue} (h : x ∈ xs) :
    sizeOf x < sizeOf (JsValue.arr xs) := by
  have := List.sizeOf_lt_of_mem h
  simp only [JsValue.arr.sizeOf_spec]
  omega

theorem sizeOf_mem_lt_obj {kv : List Char × JsValue}
    {fs : List (List Char × JsValue)} (h : kv ∈ fs) :
    sizeOf kv.2 < sizeOf (JsValue.obj fs) := by
  have h1 := List.sizeOf_lt_of_mem h
  have h2 : sizeOf kv.2 < sizeOf kv := by
    obtain ⟨k, v⟩ := kv
    simp only [Prod.mk.sizeOf_spec]
    omega
  simp only [JsValue.obj.sizeOf_spec]
  omega

/-- Join pieces with a separator. -/
def joinSep (sep : List Char) : List (List Char) → List Char
  | [] => []
  | [x] => x
  | x :: y :: rest => x ++ sep ++ joinSep sep (y :: rest)

/-- Is this JSON value `null`? -/
def isNullB : JsValue → Bool
  | .null => true
  | _ => false

/-- JavaScript string coercion `String(v)` / `${v}` of a JSON value
(array elements print with `null` as the empty string, objects as
`[object Object]`). -/
def jsToString (v : JsValue) : List Char :=
  match v with
  | .null => "null".toList
  | .bool b => if b then "true".toList else "false".toList
  | .num n => decRepr n
  | .str s => s
  | .arr xs =>
    joinSep [','] (xs.attach.map fun x =>
      if isNullB x.1 then [] else jsToString x.1)
  | .obj _ => "[object Object]".toList
termination_by sizeOf v
decreasing_by
  exact sizeOf_mem_lt_arr x.2

/-- JSON string-literal escaping used by `JSON.stringify` (quote,
backslash, and control characters). -/
def escapeJson (s : List Char) : List Char :=
  s.foldr (fun c acc =>
    if c = '"' then '\\' :: '"' :: acc
    else if c = '\\' then '\\' :: '\\' :: acc
    else if c = '\n' then '\\' :: 'n' :: acc
    else if c = '\r' then '\\' :: 'r' :: acc
    else if c = '\t' then '\\' :: 't' :: acc
    else if c = '\x08' then '\\' :: 'b' :: acc
    else if c = '\x0c' then '\\' :: 'f' :: acc
    else if c.toNat < 32 then
      '\\' :: 'u' :: '0' :: '0' :: natDigits (c.toNat / 16) ++ natDigits (c.toNat % 16) ++ acc
    else c :: acc) []

/-- `JSON.stringify(v, null, 2)`: pretty printing with two-space
indentation, as used to embed the profile into the user prompt. -/
def jsStringify2 (depth : Nat) (v : JsValue) : List Char :=
  let nl : List Char := '\n' :: List.replicate (2 * (depth + 1)) ' '
  let nlEnd : List Char := '\n' :: List.replicate (2 * depth) ' '
  match v with
  | .null => "null".toList
  | .bool b => if b then "true".toList else "false".toList
  | .num n => decRepr n
  | .str s => '"' :: escapeJson s ++ ['"']
  | .arr xs =>
    if xs.isEmpty then "[]".toList
    else
      '[' :: nl ++
        joinSep (',' :: nl) (xs.attach.map fun x => jsStringify2 (depth + 1) x.1) ++
        nlEnd ++ [']']
  | .obj fs =>
    if fs.isEmpty then [lbrace, rbrace]
    else
      lbrace :: nl ++
        joinSep (',' :: nl) (fs.attach.map fun kv =>
          '"' :: escapeJson kv.1.1 ++ ['"', ':', ' '] ++ jsStringify2 (depth + 1) kv.1.2) ++
        nlEnd ++ [rbrace]
termination_by sizeOf v
decreasing_by
  · exact sizeOf_mem_lt_arr x.2
  · exact sizeOf_mem_lt_obj kv.2
/-- The raw system-prompt template literal of the source (before `.trim()`). -/
def systemPromptRaw : List Char :=
  ("\nYou are Evolve.AI, an expert coach and sports nutritionist.\nReply ONLY with a single JSON object matching this schema. No extra text. No markdown.\n\n\x7b\n  \"week\": [\n    \x7b\n      \"day\": 1-7,\n      \"focus\": \"upper|lower|full|recovery|conditioning|hypertrophy|power|mobility\",\n      \"workouts\": [\n        \x7b\"exercise\":\"...\", \"sets\": number, \"reps\": \"x-y or seconds\", \"rest_sec\": number, \"notes\":\"optional coaching cue\"\x7d\n      ],\n      \"meals\": [\n        \x7b\"name\":\"...\", \"kcal\": number, \"protein_g\": number, \"carbs_g\": number, \"fat_g\": number,\n         \"ingredients\": [\"...\"], \"instructions\": [\"...\"]\x7d\n      ]\n    \x7d\n  ],\n  \"notes\": \"short overall guidance for the week (max 2 sentences)\"\n\x7d\n\nRules:\n- Training days: 6–7 movements; compounds first; honor session_length & training_time.\n- Respect injuries/medical; use safe substitutions in per-exercise \"notes\" if needed.\n- Match equipment_access & equipment list; reflect listed sports when relevant.\n- Balance across days_per_week; include recovery/mobility/conditioning if stress/sleep suggest.\n- Meals follow diet_style; avoid allergies/dislikes; hit calorie_target ±10% with practical macros.\n").toList

/-- The system prompt: the template literal trimmed, as in the source. -/
def systemPrompt : List Char := jsTrim systemPromptRaw

/-- The stricter system prompt of the retry:
`systemPrompt + '\nSTRICT: Reply must be only a single JSON object.'`. -/
def strictSystem : List Char :=
  systemPrompt ++ ("\nSTRICT: Reply must be only a single JSON object.".toList)

/-- The user message: profile serialised with `JSON.stringify(profile, null, 2)`
between the two fixed text pieces. -/
def userContent (profile : JsValue) : List Char :=
  ("User profile JSON:\n".toList) ++ jsStringify2 0 profile ++
    ("\nReturn ONLY the JSON object.".toList)

/-- One chat message (`{role, content}`). -/
structure ChatMessage where
  role : List Char
  content : List Char
deriving DecidableEq

/-- The messages array built by the handler. -/
def messagesFor (profile : JsValue) : List ChatMessage :=
  [⟨"system".toList, systemPrompt⟩, ⟨"user".toList, userContent profile⟩]

/-- The network request `chatJSON` issues: the fetch URL, method and
headers, and the JSON body fields, exactly as in the source.  The fetch
init of the source contains no `AbortSignal`, timeout, or other
cancellation mechanism, which `timeoutMs := none` records. -/
structure ChatRequest where
  url : List Char
  httpMethod : List Char
  authHeader : List Char
  contentTypeHeader : List Char
  model : List Char
  responseFormatType : List Char
  messages : List ChatMessage
  temperature : JsNum
  maxTokens : Nat
  timeoutMs : Option Nat
deriving DecidableEq

/-- `chatJSON(key, model, messages, temperature)`: the request it sends. -/
def chatJSONRequest (key model : List Char) (messages : List ChatMessage)
    (temperature : JsNum) : ChatRequest :=
  { url := ("https://api.openai.com/v1/chat/completions".toList)
  , httpMethod := ("POST".toList)
  , authHeader := ("Bearer ".toList) ++ key
  , contentTypeHeader := ("application/json".toList)
  , model := model
  , responseFormatType := ("json_object".toList)
  , messages := messages
  , temperature := temperature
  , maxTokens := 3000
  , timeoutMs := none }

/-- `process.env.OPENAI_MODEL || 'gpt-3.5-turbo'` and the API key, the two
environment-sourced configuration values. -/
structure Env where
  apiKey : Option (List Char)
  openaiModel : Option (List Char)

/-- The `MODEL` constant of the source for a given environment. -/
def MODEL (env : Env) : List Char := jsOrStr env.openaiModel ("gpt-3.5-turbo".toList)

/-- `!OPENAI_API_KEY` is false exactly when the variable is set and
non-empty. -/
def jsKeyPresent : Option (List Char) → Bool
  | some s => ¬s.isEmpty
  | none => false

/-- One fallback workout entry. -/
def workoutItem (exercise : List Char) (sets : Int) (reps : List Char)
    (rest : Int) : JsValue :=
  JsValue.obj
    [ (("exercise".toList), JsValue.str exercise)
    , (("sets".toList), JsValue.num (intDec sets))
    , (("reps".toList), JsValue.str reps)
    , (("rest_sec".toList), JsValue.num (intDec rest)) ]

/-- One fallback workout entry with a coaching note. -/
def workoutItemN (exercise : List Char) (sets : Int) (reps : List Char)
    (rest : Int) (notes : List Char) : JsValue :=
  JsValue.obj
    [ (("exercise".toList), JsValue.str exercise)
    , (("sets".toList), JsValue.num (intDec sets))
    , (("reps".toList), JsValue.str reps)
    , (("rest_sec".toList), JsValue.num (intDec rest))
    , (("notes".toList), JsValue.str notes) ]

/-- `Math.round(kcal * ratio)` as a JSON value; a `NaN` calorie target
propagates to `NaN`, which `JSON.stringify` renders as `null`. -/
def mealKcal (kcal : Option JsNum) (ratio : JsNum) : JsValue :=
  match kcal with
  | some k => JsValue.num (intDec (jsRound (mulDec k ratio)))
  | none => JsValue.null

/-- One fallback meal entry. -/
def mealItem (name : List Char) (kcal : JsValue) (p c f : Int)
    (ingredients instructions : List (List Char)) : JsValue :=
  JsValue.obj
    [ (("name".toList), JsValue.str name)
    , (("kcal".toList), kcal)
    , (("protein_g".toList), JsValue.num (intDec p))
    , (("carbs_g".toList), JsValue.num (intDec c))
    , (("fat_g".toList), JsValue.num (intDec f))
    , (("ingredients".toList), JsValue.arr (ingredients.map JsValue.str))
    , (("instructions".toList), JsValue.arr (instructions.map JsValue.str)) ]

/-- `planFallback(profile, meta)` from the source: the deterministic demo
plan.  It reads exactly two profile properties —
`Number(profile?.calorie_target || 2200)` and
`profile?.diet_style || 'balanced'` — and spreads `meta` over
`{fallback: true}` for the `_meta` record. -/
def planFallback (profile : JsValue) (meta : List (List Char × JsValue)) : JsValue :=
  let kcal : Option JsNum :=
    jsToNum (jsOrVal (getField profile ("calorie_target".toList)) (JsValue.num (intDec 2200)))
  let diet : JsValue :=
    jsOrVal (getField profile ("diet_style".toList)) (JsValue.str ("balanced".toList))
  JsValue.obj
    [ (("week".toList), JsValue.arr [JsValue.obj
        [ (("day".toList), JsValue.num (intDec 1))
        , (("focus".toList), JsValue.str ("full".toList))
        , (("workouts".toList), JsValue.arr
            [ workoutItemN ("Back Squat".toList) 5 ("5".toList) 120
                ("Stay tight; neutral spine.".toList)
            , workoutItemN ("Bench Press".toList) 5 ("5".toList) 120
                ("Shoulder blades retracted.".toList)
            , workoutItem ("Romanian Deadlift".toList) 3 ("8-10".toList) 90
            , workoutItem ("DB Row".toList) 3 ("10-12".toList) 75
            , workoutItem ("Walking Lunge".toList) 3 ("12/leg".toList) 60
            , workoutItem ("Plank".toList) 3 ("60s".toList) 45 ])
        , (("meals".toList), JsValue.arr
            [ mealItem ("Greek Yogurt Bowl".toList) (mealKcal kcal ⟨25, -2⟩) 35 40 10
                [("Greek yogurt".toList), ("berries".toList), ("honey".toList), ("granola".toList)]
                [("Mix yogurt + honey".toList), ("Top with berries + granola".toList)]
            , mealItem ("Chicken Burrito Bowl".toList) (mealKcal kcal ⟨40, -2⟩) 45 60 18
                [("chicken".toList), ("rice".toList), ("black beans".toList), ("corn".toList),
                 ("salsa".toList), ("greens".toList)]
                [("Cook chicken".toList), ("Assemble bowl with rice/beans/veg".toList)]
            , mealItem ("Salmon + Veg + Quinoa".toList) (mealKcal kcal ⟨35, -2⟩) 40 40 20
                [("salmon".toList), ("quinoa".toList), ("broccoli".toList), ("olive oil".toList),
                 ("lemon".toList)]
                [("Bake salmon".toList), ("Steam broccoli".toList), ("Cook quinoa".toList),
                 ("Plate & drizzle oil + lemon".toList)] ]) ]])
    , (("notes".toList), JsValue.str
        (("Fallback plan • diet: ".toList) ++ jsToString diet ++ (" • target ~".toList) ++
          (match kcal with
           | some k => decRepr k
           | none => ("NaN".toList)) ++ (" kcal/day.".toList)))
    , (("_meta".toList), JsValue.obj
        (meta.foldl (fun acc kv => setField acc kv.1 kv.2)
          [(("fallback".toList), JsValue.bool true)])) ]

/-- A thrown JavaScript error, as far as the handler can observe one.  The
engine-specific message texts of the built-in errors are modelled by
representative strings (no claim inspects them); a backend failure carries
the message `chatJSON` constructs. -/
inductive JsErr where
  | syntaxError
  | typeError
  | urlError
  | backendError (msg : List Char)
deriving DecidableEq

/-- `String(e)` of a thrown error. -/
def jsErrString : JsErr → List Char
  | .syntaxError => "SyntaxError: Unexpected token".toList
  | .typeError => "TypeError: Cannot set properties of null".toList
  | .urlError => "TypeError: Invalid URL".toList
  | .backendError msg => ("Error: ".toList) ++ msg

/-- `parsedX.value._meta = {...}` of the source: JS property assignment at
the JSON-document level.  On an object it sets the property; on `null` it
throws a `TypeError`; on an array the property is set on the array object
but dropped again by `JSON.stringify`; on the remaining primitives the
sloppy-mode assignment is a silent no-op. -/
def setMeta (v : JsValue) (meta : JsValue) : Except JsErr JsValue :=
  match v with
  | .obj fs => .ok (.obj (setField fs ("_meta".toList) meta))
  | .null => .error .typeError
  | other => .ok other

/-- The CORS headers of the source's `cors()`. -/
def cors : List (List Char × List Char) :=
  [ (("Access-Control-Allow-Origin".toList), ("*".toList))
  , (("Access-Control-Allow-Headers".toList), ("Content-Type, Authorization".toList))
  , (("Access-Control-Allow-Methods".toList), ("POST, OPTIONS".toList)) ]

/-- An HTTP response of the handler.  `body` is the JSON document that
`JSON.stringify` serialises (`none` is the raw empty body of the CORS
preflight answer). -/
structure Response where
  statusCode : Nat
  headers : List (List Char × List Char)
  body : Option JsValue

/-- The source's `json(code, obj)` helper. -/
def json (code : Nat) (obj : JsValue) : Response :=
  ⟨code, (("Content-Type".toList), ("application/json".toList)) :: cors, some obj⟩

/-- The catch-all answer of the handler: a valid plan built from an empty
profile with reason `exception` and the stringified error. -/
def exceptionResponse (e : JsErr) : Response :=
  json 200 (planFallback (JsValue.obj [])
    [ (("reason".toList), JsValue.str ("exception".toList))
    , (("error".toList), JsValue.str (jsErrString e)) ])

/-- `new URL(s)` as far as the handler uses it: the constructor throws on
a string without a scheme; otherwise the URL (kept as its raw text, since
only the query string is read) is returned.  WHATWG normalisation is not
modelled. -/
def jsNewURL (s : List Char) : Except JsErr (List Char) :=
  let scheme := s.takeWhile (fun c => c ≠ ':')
  if (decide (scheme.length < s.length) && !scheme.isEmpty &&
      (match scheme with
       | c :: _ => c.isAlpha
       | [] => false)) = true then .ok s
  else .error .urlError

/-- `url.searchParams.get(name)`: the value of the first query parameter
with that name, from the part of the URL between the first `?` and any
`#` (percent-decoding and `+` decoding are not modelled; the only probed
parameter is `test=1`). -/
def searchParamsGet (url : List Char) (name : List Char) : Option (List Char) :=
  if url.contains '?' then
    let query := ((url.dropWhile (fun c => c ≠ '?')).drop 1).takeWhile (fun c => c ≠ '#')
    let pieces := (query.splitOn '&').filter (fun p => ¬p.isEmpty)
    match pieces.find? (fun p => p.takeWhile (fun c => c ≠ '=') = name) with
    | some p =>
      some (if p.contains '=' then (p.dropWhile (fun c => c ≠ '=')).drop 1 else [])
    | none => none
  else none

/-- A Netlify function event, restricted to the fields the handler reads. -/
structure Event where
  httpMethod : List Char
  body : Option (List Char)
  rawUrl : Option (List Char)
  path : List Char

/-- The outcome of one `chatJSON` call as the handler observes it: either
a thrown error (non-OK backend status, network failure) or the text
`data?.choices?.[0]?.message?.content || ''` (so an empty-content success
is the empty string). -/
abbrev ChatOutcome := Except JsErr (List Char)

/-- `exports.handler` of the source, as a pure function of the
environment, the event, and the outcomes of the at-most-two backend calls.
The second component of the result is the list of backend requests the
handler issued, in order, so that "no network call" and "exactly one
retry" are statable; the `try`/`catch` of the source becomes explicit
propagation into `exceptionResponse`. -/
def handler (env : Env) (event : Event) (r1 r2 : ChatOutcome) :
    Response × List ChatRequest :=
  if event.httpMethod = ("OPTIONS".toList) then (⟨204, cors, none⟩, [])
  else if event.httpMethod ≠ ("POST".toList) then
    (json 405 (JsValue.obj [(("error".toList), JsValue.str ("Use POST".toList))]), [])
  else
    match jsonParse (jsOrStr event.body ([lbrace, rbrace])) with
    | none => (exceptionResponse JsErr.syntaxError, [])
    | some profile =>
      if ¬jsKeyPresent env.apiKey then
        (json 200 (planFallback profile
          [(("reason".toList), JsValue.str ("missing_api_key".toList))]), [])
      else
        let key := env.apiKey.getD []
        match jsNewURL (jsOrStr event.rawUrl (("https://x".toList) ++ event.path)) with
        | .error e => (exceptionResponse e, [])
        | .ok url =>
          if searchParamsGet url ("test".toList) = some ("1".toList) then
            (json 200 (planFallback profile
              [(("reason".toList), JsValue.str ("test_mode".toList))]), [])
          else
            let msgs := messagesFor profile
            let req1 := chatJSONRequest key (MODEL env) msgs ⟨6, -1⟩
            match r1 with
            | .error e => (exceptionResponse e, [req1])
            | .ok t1 =>
              match tryParseJSON t1 with
              | .ok v1 =>
                match setMeta v1 (JsValue.obj
                    [ (("model".toList), JsValue.str (MODEL env))
                    , (("retry".toList), JsValue.bool false) ]) with
                | .error e => (exceptionResponse e, [req1])
                | .ok v1m => (json 200 v1m, [req1])
              | .fail _ =>
                let req2 := chatJSONRequest key (MODEL env)
                  [⟨"system".toList, strictSystem⟩, ⟨"user".toList, userContent profile⟩] ⟨4, -1⟩
                match r2 with
                | .error e => (exceptionResponse e, [req1, req2])
                | .ok t2 =>
                  match tryParseJSON t2 with
                  | .fail _ =>
                    (json 200 (planFallback profile
                      [ (("reason".toList), JsValue.str ("bad_json".toList))
                      , (("model".toList), JsValue.str (MODEL env))
                      , (("raw".toList), JsValue.str (jsOrStr (some t2) t1)) ]), [req1, req2])
                  | .ok v2 =>
                    match setMeta v2 (JsValue.obj
                        [ (("model".toList), JsValue.str (MODEL env))
                        , (("retry".toList), JsValue.bool true) ]) with
                    | .error e => (exceptionResponse e, [req1, req2])
                    | .ok v2m => (json 200 v2m, [req1, req2])

/-- Is this JSON value an object? -/
def isObjB : JsValue → Bool
  | .obj _ => true
  | _ => false

/-- One DayPlan entry of the Plan schema: an object with a numeric `day`,
a string `focus`, and `workouts` and `meals` arrays whose entries are
objects (the WorkoutItem / MealItem records). -/
def dayPlanValid (d : JsValue) : Bool :=
  (match getField d ("day".toList) with
   | some (.num _) => true
   | _ => false) &&
  (match getField d ("focus".toList) with
   | some (.str _) => true
   | _ => false) &&
  (match getField d ("workouts".toList) with
   | some (.arr ws) => ws.all isObjB
   | _ => false) &&
  (match getField d ("meals".toList) with
   | some (.arr ms) => ms.all isObjB
   | _ => false)

/-- The Plan schema of the specification's totality claim: a JSON object
with a non-empty `week` array of DayPlan entries plus an attached
`_meta` Metadata object. -/
def planSchemaValid (v : JsValue) : Bool :=
  (match getField v ("week".toList) with
   | some (.arr days) => !days.isEmpty && days.all dayPlanValid
   | _ => false) &&
  (match getField v ("_meta".toList) with
   | some (.obj _) => true
   | _ => false)

/-- Plan-schema validity of a response body. -/
def planDocValid : Option JsValue → Bool
  | some v => planSchemaValid v
  | none => false

/-- The fallback generator always produces a schema-valid Plan, whatever
the profile and metadata. -/
theorem planFallback_valid (p : JsValue) (m : List (List Char × JsValue)) :
    planSchemaValid (planFallback p m) = true := rfl

/-- The `_meta` record of a response body. -/
def respMeta (r : Response) : Option JsValue :=
  r.body.bind (fun b => getField b ("_meta".toList))

/-- A field of the `_meta` record of a response body. -/
def metaField (r : Response) (k : List Char) : Option JsValue :=
  (respMeta r).bind (fun m => getField m k)

/-- The `kcal` fields of the meals of the first day of the plan in a
response body. -/
def mealKcalsOf (b : Option JsValue) : Option (List (Option JsValue)) :=
  (b.bind (fun v => getField v ("week".toList))).bind fun w =>
    match w with
    | .arr (d :: _) =>
      match getField d ("meals".toList) with
      | some (.arr ms) => some (ms.map (fun m => getField m ("kcal".toList)))
      | _ => none
    | _ => none

/-- The request body of the missing-credential scenario: the profile
`{age:30, height_cm:180, weight_kg:80, calorie_target:2400,
diet_style:"balanced"}`. -/
def profileC8Text : List Char :=
  ("\x7b\"age\":30,\"height_cm\":180,\"weight_kg\":80,\"calorie_target\":2400,\"diet_style\":\"balanced\"\x7d".toList)

/-- A placeholder backend outcome for runs that must not reach the
backend at all. -/
def unusedOutcome : ChatOutcome := Except.error (JsErr.backendError ("unused".toList))

/-- Claim C8: with the profile `{age:30, height_cm:180, weight_kg:80,
calorie_target:2400, diet_style:"balanced"}` and no API credential
configured, the handler performs no network call and returns the fallback
plan with `_meta.fallback = true` and reason `missing_api_key`, whose
three meal kcal values are `round(2400*0.25) = 600`,
`round(2400*0.40) = 960` and `round(2400*0.35) = 840`, summing exactly to
the 2400-kcal target. -/
theorem claim_C8_missing_key_scenario :
    (handler ⟨none, none⟩ ⟨("POST".toList), some profileC8Text, none, ("/f".toList)⟩
        unusedOutcome unusedOutcome).2 = [] ∧
    (handler ⟨none, none⟩ ⟨("POST".toList), some profileC8Text, none, ("/f".toList)⟩
        unusedOutcome unusedOutcome).1.statusCode = 200 ∧
    metaField (handler ⟨none, none⟩ ⟨("POST".toList), some profileC8Text, none, ("/f".toList)⟩
        unusedOutcome unusedOutcome).1 ("fallback".toList) = some (JsValue.bool true) ∧
    metaField (handler ⟨none, none⟩ ⟨("POST".toList), some profileC8Text, none, ("/f".toList)⟩
        unusedOutcome unusedOutcome).1 ("reason".toList) =
      some (JsValue.str ("missing_api_key".toList)) ∧
    mealKcalsOf (handler ⟨none, none⟩ ⟨("POST".toList), some profileC8Text, none, ("/f".toList)⟩
        unusedOutcome unusedOutcome).1.body =
      some [ some (JsValue.num (intDec (jsRound (mulDec (intDec 2400) ⟨25, -2⟩))))
           , some (JsValue.num (intDec (jsRound (mulDec (intDec 2400) ⟨40, -2⟩))))
           , some (JsValue.num (intDec (jsRound (mulDec (intDec 2400) ⟨35, -2⟩)))) ] ∧
    jsRound (mulDec (intDec 2400) ⟨25, -2⟩) = 600 ∧
    jsRound (mulDec (intDec 2400) ⟨40, -2⟩) = 960 ∧
    jsRound (mulDec (intDec 2400) ⟨35, -2⟩) = 840 ∧
    jsRound (mulDec (intDec 2400) ⟨25, -2⟩) + jsRound (mulDec (intDec 2400) ⟨40, -2⟩) +
      jsRound (mulDec (intDec 2400) ⟨35, -2⟩) = 2400 :=
  ⟨rfl, rfl, rfl, rfl, rfl, rfl, rfl, rfl, rfl⟩

/-- Claim C4 counterexample: the request `chatJSON` sends for the
handler's first attempt carries no client-side timeout or cancellation
signal — its fetch init consists of the method, the two headers, and the
JSON body alone. -/
theorem claim_C4_counterexample :
    (chatJSONRequest ("sk-test".toList) ("gpt-3.5-turbo".toList)
      (messagesFor (JsValue.obj [])) ⟨6, -1⟩).timeoutMs = none := rfl

/-- Claim C4 (amended): no call to the LLM backend is bounded by a
client-side deadline: every request `chatJSON` constructs — whatever the
key, model, messages and temperature — is a plain POST to the completions
endpoint with `max_tokens 3000` and no timeout or cancellation mechanism;
a non-responding backend is bounded only by the platform, not by the
client. -/
theorem claim_C4_no_client_timeout (key model : List Char)
    (messages : List ChatMessage) (temperature : JsNum) :
    (chatJSONRequest key model messages temperature).timeoutMs = none ∧
    (chatJSONRequest key model messages temperature).url =
      ("https://api.openai.com/v1/chat/completions".toList) ∧
    (chatJSONRequest key model messages temperature).maxTokens = 3000 :=
  ⟨rfl, rfl, rfl⟩

/-- An environment with a credential configured. -/
def envKeyed : Env := ⟨some ("sk-test".toList), none⟩

/-- A POST event whose body is not valid JSON. -/
def eventBadBody : Event :=
  ⟨("POST".toList), some ("oops, not json".toList), some ("https://a.b/fn".toList), ("/fn".toList)⟩

/-- Claim C7 counterexample: with a credential configured and the request
body `oops, not json` (not valid JSON), the handler does **not** propagate
a rejection: it answers 200 with a schema-valid fallback Plan whose
`_meta.reason` is `exception` — the body-parse `SyntaxError` is swallowed
by the handler's catch-all. -/
theorem claim_C7_counterexample :
    (handler envKeyed eventBadBody unusedOutcome unusedOutcome).1.statusCode = 200 ∧
    planDocValid (handler envKeyed eventBadBody unusedOutcome unusedOutcome).1.body = true ∧
    metaField (handler envKeyed eventBadBody unusedOutcome unusedOutcome).1 ("reason".toList) =
      some (JsValue.str ("exception".toList)) ∧
    metaField (handler envKeyed eventBadBody unusedOutcome unusedOutcome).1 ("fallback".toList) =
      some (JsValue.bool true) :=
  ⟨rfl, rfl, rfl, rfl⟩

/-- Claim C7 (amended): a POST request whose body is not valid JSON is
*not* rejected: `JSON.parse(event.body || '\x7b\x7d')` sits inside the
handler's `try`, so the thrown `SyntaxError` lands in the catch-all and
the handler answers 200 with the exception-reason fallback Plan (built
from an empty profile), issuing no backend call.  Conditions downstream of
a successfully parsed profile likewise terminate in a valid Plan (claim
C1). -/
theorem claim_C7_bad_body_yields_fallback (env : Env) (event : Event)
    (r1 r2 : ChatOutcome)
    (hm : event.httpMethod = ("POST".toList))
    (hb : jsonParse (jsOrStr event.body ([lbrace, rbrace])) = none) :
    handler env event r1 r2 = (exceptionResponse JsErr.syntaxError, []) := by
  unfold handler
  rw [hm, hb]
  rfl

/-- Witness for the amended C7 theorem at the concrete bad-body event. -/
theorem claim_C7_witness :
    handler envKeyed eventBadBody unusedOutcome unusedOutcome =
      (exceptionResponse JsErr.syntaxError, []) :=
  claim_C7_bad_body_yields_fallback envKeyed eventBadBody unusedOutcome unusedOutcome rfl rfl

/-- A plain POST event with an empty-object body and a URL without query
parameters. -/
def eventPlain : Event :=
  ⟨("POST".toList), some ([lbrace, rbrace]), some ("https://a.b/fn".toList), ("/fn".toList)⟩

/-- First-attempt prose answer with no JSON in it. -/
def proseText1 : List Char := "Sorry, I can only help with fitness.".toList

/-- Second-attempt prose answer with no JSON in it. -/
def proseText2 : List Char := "As an AI I cannot produce that.".toList

/-- Claim C3 counterexample: when both attempts return prose containing no
JSON, the fallback's `_meta.reason` is the string `bad_json` — not
`bad_json_or_timeout` as claimed. -/
theorem claim_C3_counterexample :
    metaField (handler envKeyed eventPlain (.ok proseText1) (.ok proseText2)).1
        ("reason".toList) = some (JsValue.str ("bad_json".toList)) ∧
    some (JsValue.str ("bad_json".toList)) ≠
      some (JsValue.str ("bad_json_or_timeout".toList)) := by
  refine ⟨rfl, ?_⟩
  simp only [ne_eq, Option.some.injEq, JsValue.str.injEq]
  decide

/-- Claim C3 (amended): when both attempts fail to yield parseable JSON,
the handler returns 200 with the fallback Plan whose `_meta` carries
reason `bad_json` (not `bad_json_or_timeout`), the model identifier, and
`raw` set to attempt 2's text when that is non-empty (attempt 1's text
otherwise); exactly two backend calls were issued. -/
theorem claim_C3_double_failure_fallback (env : Env) (event : Event)
    (profile : JsValue) (url : List Char) (t1 t2 : List Char)
    (hm : event.httpMethod = ("POST".toList))
    (hb : jsonParse (jsOrStr event.body ([lbrace, rbrace])) = some profile)
    (hk : jsKeyPresent env.apiKey = true)
    (hu : jsNewURL (jsOrStr event.rawUrl (("https://x".toList) ++ event.path)) = .ok url)
    (ht : searchParamsGet url ("test".toList) ≠ some ("1".toList))
    (h1 : tryParseJSON t1 = ParseOut.fail t1)
    (h2 : tryParseJSON t2 = ParseOut.fail t2) :
    handler env event (.ok t1) (.ok t2) =
      (json 200 (planFallback profile
        [ (("reason".toList), JsValue.str ("bad_json".toList))
        , (("model".toList), JsValue.str (MODEL env))
        , (("raw".toList), JsValue.str (jsOrStr (some t2) t1)) ]),
       [ chatJSONRequest (env.apiKey.getD []) (MODEL env) (messagesFor profile) ⟨6, -1⟩
       , chatJSONRequest (env.apiKey.getD []) (MODEL env)
           [⟨"system".toList, strictSystem⟩, ⟨"user".toList, userContent profile⟩]
           ⟨4, -1⟩ ]) := by
  unfold handler
  rw [hm]
  simp +decide only [hb, hk, hu, h1, h2, if_neg ht, if_false]

/-- Witness for the amended C3 theorem on the concrete both-prose run. -/
theorem claim_C3_witness :
    handler envKeyed eventPlain (.ok proseText1) (.ok proseText2) =
      (json 200 (planFallback (JsValue.obj [])
        [ (("reason".toList), JsValue.str ("bad_json".toList))
        , (("model".toList), JsValue.str (MODEL envKeyed))
        , (("raw".toList), JsValue.str (jsOrStr (some proseText2) proseText1)) ]),
       [ chatJSONRequest (envKeyed.apiKey.getD []) (MODEL envKeyed)
           (messagesFor (JsValue.obj [])) ⟨6, -1⟩
       , chatJSONRequest (envKeyed.apiKey.getD []) (MODEL envKeyed)
           [⟨"system".toList, strictSystem⟩, ⟨"user".toList, userContent (JsValue.obj [])⟩]
           ⟨4, -1⟩ ]) :=
  claim_C3_double_failure_fallback envKeyed eventPlain (JsValue.obj [])
    ("https://a.b/fn".toList) proseText1 proseText2 rfl rfl rfl rfl
    (by decide) rfl rfl

/-- Looking up the key just written by `setField` yields the new value. -/
theorem lookup_setField (fs : List (List Char × JsValue)) (k : List Char) (v : JsValue) :
    lookupField (setField fs k v) k = some v := by
  induction fs with
  | nil => simp [setField, lookupField]
  | cons hd tl ih =>
    obtain ⟨k', v'⟩ := hd
    by_cases h : k' = k
    · simp [setField, lookupField, h]
    · simp [setField, lookupField, h, ih]

/-- A syntactically valid JSON plan text used as a backend answer. -/
def goodPlanText : List Char := ("\x7b\"week\":[\x7b\"day\":1\x7d]\x7d".toList)

/-- Claim C2 counterexample: attempt 1 fails at the Completion Client with
a thrown backend error (`OpenAI 500: ...`), and attempt 2 would return
valid JSON — yet the handler issues **no** second call (exactly one
backend request) and answers with the exception-reason fallback, whose
Metadata has no `retry` flag; the thrown failure bypasses the retry. -/
theorem claim_C2_counterexample :
    (handler envKeyed eventPlain
        (.error (.backendError ("OpenAI 500: upstream".toList))) (.ok goodPlanText)).2.length
      = 1 ∧
    metaField (handler envKeyed eventPlain
        (.error (.backendError ("OpenAI 500: upstream".toList))) (.ok goodPlanText)).1
        ("reason".toList) = some (JsValue.str ("exception".toList)) ∧
    metaField (handler envKeyed eventPlain
        (.error (.backendError ("OpenAI 500: upstream".toList))) (.ok goodPlanText)).1
        ("retry".toList) = none :=
  ⟨rfl, rfl, rfl⟩

/-- Claim C2 (amended): the retry fires exactly when the *text* of attempt
1 fails JSON extraction (which includes the empty text of an empty
response, but not thrown Completion Client failures — those short-circuit
to the exception fallback).  In that case exactly one second call is
issued, with `'\nSTRICT: Reply must be only a single JSON object.'`
appended to the system prompt and temperature 0.4; and if attempt 2's text
parses to a JSON object, the response is that object with
`_meta = {model, retry: true}` — so `retry` is `true` and `fallback` is
absent. -/
theorem claim_C2_retry_on_parse_failure (env : Env) (event : Event)
    (profile : JsValue) (url : List Char) (t1 t2 : List Char)
    (fs : List (List Char × JsValue))
    (hm : event.httpMethod = ("POST".toList))
    (hb : jsonParse (jsOrStr event.body ([lbrace, rbrace])) = some profile)
    (hk : jsKeyPresent env.apiKey = true)
    (hu : jsNewURL (jsOrStr event.rawUrl (("https://x".toList) ++ event.path)) = .ok url)
    (ht : searchParamsGet url ("test".toList) ≠ some ("1".toList))
    (h1 : tryParseJSON t1 = ParseOut.fail t1)
    (h2 : tryParseJSON t2 = ParseOut.ok (JsValue.obj fs)) :
    (handler env event (.ok t1) (.ok t2)).2 =
      [ chatJSONRequest (env.apiKey.getD []) (MODEL env) (messagesFor profile) ⟨6, -1⟩
      , chatJSONRequest (env.apiKey.getD []) (MODEL env)
          [⟨"system".toList, strictSystem⟩, ⟨"user".toList, userContent profile⟩]
          ⟨4, -1⟩ ] ∧
    strictSystem = systemPrompt ++ ("\nSTRICT: Reply must be only a single JSON object.".toList) ∧
    (handler env event (.ok t1) (.ok t2)).1 =
      json 200 (JsValue.obj (setField fs ("_meta".toList) (JsValue.obj
        [ (("model".toList), JsValue.str (MODEL env))
        , (("retry".toList), JsValue.bool true) ]))) ∧
    metaField (handler env event (.ok t1) (.ok t2)).1 ("retry".toList) =
      some (JsValue.bool true) ∧
    metaField (handler env event (.ok t1) (.ok t2)).1 ("fallback".toList) = none := by
  have hrun : handler env event (.ok t1) (.ok t2) =
      (json 200 (JsValue.obj (setField fs ("_meta".toList) (JsValue.obj
        [ (("model".toList), JsValue.str (MODEL env))
        , (("retry".toList), JsValue.bool true) ]))),
       [ chatJSONRequest (env.apiKey.getD []) (MODEL env) (messagesFor profile) ⟨6, -1⟩
       , chatJSONRequest (env.apiKey.getD []) (MODEL env)
           [⟨"system".toList, strictSystem⟩, ⟨"user".toList, userContent profile⟩]
           ⟨4, -1⟩ ]) := by
    unfold handler
    rw [hm]
    simp +decide only [hb, hk, hu, h1, h2, if_neg ht, if_false]
    rfl
  refine ⟨by rw [hrun], rfl, by rw [hrun], ?_, ?_⟩
  · rw [hrun]
    simp only [metaField, respMeta, json, Option.some_bind, getField, lookup_setField]
    rfl
  · rw [hrun]
    simp only [metaField, respMeta, json, Option.some_bind, getField, lookup_setField]
    rfl

/-- Witness for the amended C2 theorem: first attempt prose, second
attempt valid JSON. -/
theorem claim_C2_witness :
    (handler envKeyed eventPlain (.ok proseText1) (.ok goodPlanText)).2 =
      [ chatJSONRequest (envKeyed.apiKey.getD []) (MODEL envKeyed)
          (messagesFor (JsValue.obj [])) ⟨6, -1⟩
      , chatJSONRequest (envKeyed.apiKey.getD []) (MODEL envKeyed)
          [⟨"system".toList, strictSystem⟩, ⟨"user".toList, userContent (JsValue.obj [])⟩]
          ⟨4, -1⟩ ] ∧
    strictSystem = systemPrompt ++ ("\nSTRICT: Reply must be only a single JSON object.".toList) ∧
    (handler envKeyed eventPlain (.ok proseText1) (.ok goodPlanText)).1 =
      json 200 (JsValue.obj (setField
        [(("week".toList), JsValue.arr [JsValue.obj [(("day".toList), JsValue.num (intDec 1))]])]
        ("_meta".toList) (JsValue.obj
        [ (("model".toList), JsValue.str (MODEL envKeyed))
        , (("retry".toList), JsValue.bool true) ]))) ∧
    metaField (handler envKeyed eventPlain (.ok proseText1) (.ok goodPlanText)).1
      ("retry".toList) = some (JsValue.bool true) ∧
    metaField (handler envKeyed eventPlain (.ok proseText1) (.ok goodPlanText)).1
      ("fallback".toList) = none :=
  claim_C2_retry_on_parse_failure envKeyed eventPlain (JsValue.obj [])
    ("https://a.b/fn".toList) proseText1 goodPlanText
    [(("week".toList), JsValue.arr [JsValue.obj [(("day".toList), JsValue.num (intDec 1))]])]
    rfl rfl rfl rfl (by decide) rfl rfl

/-- Claim C10: a POST request whose URL carries the query parameter
`test=1` short-circuits — even with a credential configured — to a 200
response holding the fallback Plan with `_meta.fallback = true` and reason
`test_mode`, and no backend request is issued. -/
theorem claim_C10_test_switch (env : Env) (event : Event) (r1 r2 : ChatOutcome)
    (profile : JsValue) (url : List Char)
    (hm : event.httpMethod = ("POST".toList))
    (hb : jsonParse (jsOrStr event.body ([lbrace, rbrace])) = some profile)
    (hk : jsKeyPresent env.apiKey = true)
    (hu : jsNewURL (jsOrStr event.rawUrl (("https://x".toList) ++ event.path)) = .ok url)
    (ht : searchParamsGet url ("test".toList) = some ("1".toList)) :
    handler env event r1 r2 =
      (json 200 (planFallback profile
        [(("reason".toList), JsValue.str ("test_mode".toList))]), []) ∧
    metaField (handler env event r1 r2).1 ("fallback".toList) = some (JsValue.bool true) ∧
    metaField (handler env event r1 r2).1 ("reason".toList) =
      some (JsValue.str ("test_mode".toList)) := by
  have hrun : handler env event r1 r2 =
      (json 200 (planFallback profile
        [(("reason".toList), JsValue.str ("test_mode".toList))]), []) := by
    unfold handler
    rw [hm]
    simp +decide only [hb, hk, hu, if_pos ht, if_false]
  refine ⟨hrun, ?_, ?_⟩
  · rw [hrun]
    rfl
  · rw [hrun]
    rfl

/-- A POST event carrying `?test=1` in its URL. -/
def eventTest : Event :=
  ⟨("POST".toList), some profileC8Text, some ("https://a.b/fn?test=1".toList), ("/fn".toList)⟩

/-- Witness for claim C10 at a concrete test-mode request. -/
theorem claim_C10_witness :
    handler envKeyed eventTest unusedOutcome unusedOutcome =
      (json 200 (planFallback
        (JsValue.obj
          [ (("age".toList), JsValue.num (intDec 30))
          , (("height_cm".toList), JsValue.num (intDec 180))
          , (("weight_kg".toList), JsValue.num (intDec 80))
          , (("calorie_target".toList), JsValue.num (intDec 2400))
          , (("diet_style".toList), JsValue.str ("balanced".toList)) ])
        [(("reason".toList), JsValue.str ("test_mode".toList))]), []) :=
  (claim_C10_test_switch envKeyed eventTest unusedOutcome unusedOutcome
    (JsValue.obj
      [ (("age".toList), JsValue.num (intDec 30))
      , (("height_cm".toList), JsValue.num (intDec 180))
      , (("weight_kg".toList), JsValue.num (intDec 80))
      , (("calorie_target".toList), JsValue.num (intDec 2400))
      , (("diet_style".toList), JsValue.str ("balanced".toList)) ])
    ("https://a.b/fn?test=1".toList) rfl rfl rfl rfl rfl).1

/-- Claim C9: the fallback generator reads exactly the calorie target and
the diet style of the profile — two profiles agreeing on those two
properties produce identical fallback Plans for any metadata, whatever
their injuries, medical conditions, allergies, dislikes, equipment or
training-day fields say. -/
theorem claim_C9_fallback_noninterference (p1 p2 : JsValue)
    (meta : List (List Char × JsValue))
    (hct : getField p1 ("calorie_target".toList) = getField p2 ("calorie_target".toList))
    (hds : getField p1 ("diet_style".toList) = getField p2 ("diet_style".toList)) :
    planFallback p1 meta = planFallback p2 meta := by
  unfold planFallback
  rw [hct, hds]

/-- Witness for claim C9: two profiles differing in injuries, equipment,
allergies and training days but agreeing on `calorie_target` and
`diet_style` get the same fallback Plan. -/
theorem claim_C9_witness :
    planFallback
      (JsValue.obj
        [ (("calorie_target".toList), JsValue.num (intDec 2000))
        , (("diet_style".toList), JsValue.str ("vegan".toList))
        , (("injuries".toList), JsValue.arr [JsValue.str ("knee".toList)])
        , (("medical".toList), JsValue.arr [JsValue.str ("asthma".toList)])
        , (("days_per_week".toList), JsValue.num (intDec 3)) ])
      [(("reason".toList), JsValue.str ("missing_api_key".toList))] =
    planFallback
      (JsValue.obj
        [ (("allergies".toList), JsValue.arr [JsValue.str ("peanut".toList)])
        , (("equipment".toList), JsValue.arr [JsValue.str ("barbell".toList)])
        , (("calorie_target".toList), JsValue.num (intDec 2000))
        , (("diet_style".toList), JsValue.str ("vegan".toList))
        , (("food_dislikes".toList), JsValue.arr [JsValue.str ("celery".toList)]) ])
      [(("reason".toList), JsValue.str ("missing_api_key".toList))] :=
  claim_C9_fallback_noninterference _ _ _ rfl rfl

/-- A character that occurs nowhere in a list has no first index. -/
theorem firstIdx_eq_none_of_not_mem {c : Char} {l : List Char} (h : c ∉ l) :
    firstIdx c l = none := by
  induction l with
  | nil => rfl
  | cons x xs ih =>
    have hx : ¬x = c := fun he => h (he ▸ List.mem_cons_self x xs)
    have hxs : c ∉ xs := fun hm => h (List.mem_cons_of_mem x hm)
    simp [firstIdx, hx, ih hxs]

/-- Claim C6: `tryParseJSON` is total (it is a Lean function, so it can
raise nothing), and its failure value always carries the input text
unchanged; in particular, on input whose direct parse fails and which
contains no `\x7b`, it fails carrying the raw text. -/
theorem claim_C6_extract_never_raises (text : List Char) :
    (match tryParseJSON text with
     | ParseOut.fail raw => raw = text
     | ParseOut.ok _ => True) ∧
    (lbrace ∉ text → jsonParse text = none → tryParseJSON text = ParseOut.fail text) := by
  constructor
  · unfold tryParseJSON
    cases hp : jsonParse text with
    | some v => trivial
    | none =>
      cases hf : firstIdx lbrace text with
      | none =>
        cases hl : lastIdx rbrace text <;> trivial
      | some first =>
        cases hl : lastIdx rbrace text with
        | none => trivial
        | some last =>
          by_cases hlt : first < last
          · simp only [if_pos hlt]
            cases hs : jsonParse (jsSlice text first (last + 1)) with
            | some v => simp [hs]
            | none => simp [hs]
          · simp only [if_neg hlt]
  · intro hnb hnone
    unfold tryParseJSON
    rw [hnone, firstIdx_eq_none_of_not_mem hnb]

/-- Witness for claim C6 on a brace-free prose input. -/
theorem claim_C6_witness :
    tryParseJSON ("hello world".toList) = ParseOut.fail ("hello world".toList) :=
  (claim_C6_extract_never_raises ("hello world".toList)).2 (by decide) rfl

/-- First index distributes over an append whose prefix misses the
character. -/
theorem firstIdx_append_of_not_mem {c : Char} {pre rest : List Char} {n : Nat}
    (h : c ∉ pre) (hr : firstIdx c rest = some n) :
    firstIdx c (pre ++ rest) = some (pre.length + n) := by
  induction pre with
  | nil => simpa using hr
  | cons x xs ih =>
    have hx : ¬x = c := fun he => h (he ▸ List.mem_cons_self x xs)
    have hxs : c ∉ xs := fun hm => h (List.mem_cons_of_mem x hm)
    simp [firstIdx, hx, ih hxs]
    omega

/-- A character that occurs nowhere in a list has no last index. -/
theorem lastIdx_eq_none_of_not_mem {c : Char} {l : List Char} (h : c ∉ l) :
    lastIdx c l = none := by
  induction l with
  | nil => rfl
  | cons x xs ih =>
    have hx : ¬x = c := fun he => h (he ▸ List.mem_cons_self x xs)
    have hxs : c ∉ xs := fun hm => h (List.mem_cons_of_mem x hm)
    simp [lastIdx, ih hxs, hx]

/-- Appending a suffix that misses the character leaves the last index
unchanged. -/
theorem lastIdx_append_of_not_mem {c : Char} {post : List Char} (a : List Char)
    (h : c ∉ post) : lastIdx c (a ++ post) = lastIdx c a := by
  induction a with
  | nil => simpa using lastIdx_eq_none_of_not_mem h
  | cons x xs ih => simp only [List.cons_append, lastIdx, List.append_eq, ih]

/-- The last index of `c` in `a ++ [c]` is the length of `a`. -/
theorem lastIdx_append_self (c : Char) (a : List Char) :
    lastIdx c (a ++ [c]) = some a.length := by
  induction a with
  | nil => simp [lastIdx]
  | cons x xs ih => simp [lastIdx, ih]

/-- Slicing out the middle of a three-part concatenation. -/
theorem jsSlice_middle (pre s post : List Char) :
    jsSlice (pre ++ s ++ post) pre.length (pre.length + s.length) = s := by
  unfold jsSlice
  rw [List.append_assoc, List.drop_left]
  have h : pre.length + s.length - pre.length = s.length := by omega
  rw [h, List.take_left]

/-- Claim C5: for a text of the form `noise ++ object ++ noise` where the
noise pieces contain no brace, the embedded object text runs from the
text's first `\x7b` to its last `\x7d`, so when direct parsing fails and
the embedded text parses to `v`, `tryParseJSON` salvages exactly the
embedded object and returns it — recovering payloads wrapped in prose or
markdown code fences. -/
theorem claim_C5_salvage_recovers (pre mid post : List Char) (v : JsValue)
    (hpre1 : lbrace ∉ pre) (hpre2 : rbrace ∉ pre)
    (hpost1 : lbrace ∉ post) (hpost2 : rbrace ∉ post)
    (hdirect : jsonParse (pre ++ (lbrace :: mid ++ [rbrace]) ++ post) = none)
    (hobj : jsonParse (lbrace :: mid ++ [rbrace]) = some v) :
    tryParseJSON (pre ++ (lbrace :: mid ++ [rbrace]) ++ post) = ParseOut.ok v := by
  have hf : firstIdx lbrace (pre ++ (lbrace :: mid ++ [rbrace]) ++ post) =
      some pre.length := by
    rw [List.append_assoc]
    have h0 : firstIdx lbrace ((lbrace :: mid ++ [rbrace]) ++ post) = some 0 := by
      simp [firstIdx]
    simpa using firstIdx_append_of_not_mem hpre1 h0
  have hl : lastIdx rbrace (pre ++ (lbrace :: mid ++ [rbrace]) ++ post) =
      some (pre.length + (mid.length + 1)) := by
    have h1 : pre ++ (lbrace :: mid ++ [rbrace]) ++ post =
        ((pre ++ (lbrace :: mid)) ++ [rbrace]) ++ post := by
      simp [List.append_assoc]
    rw [h1, lastIdx_append_of_not_mem _ hpost2, lastIdx_append_self]
    simp
  have hslice : jsSlice (pre ++ (lbrace :: mid ++ [rbrace]) ++ post) pre.length
      (pre.length + (mid.length + 1) + 1) = lbrace :: mid ++ [rbrace] := by
    have h2 : pre.length + (mid.length + 1) + 1 =
        pre.length + (lbrace :: mid ++ [rbrace]).length := by
      simp
      omega
    rw [h2]
    exact jsSlice_middle pre (lbrace :: mid ++ [rbrace]) post
  unfold tryParseJSON
  rw [hdirect, hf, hl]
  have hlt : pre.length < pre.length + (mid.length + 1) := by omega
  simp only [if_pos hlt, hslice, hobj]

/-- Prose-and-fence noise before the payload. -/
def fencedPre : List Char := "Sure! Here is your plan:\n```json\n".toList

/-- The object body between the braces of the payload. -/
def fencedMid : List Char := "\"week\":[]".toList

/-- Prose-and-fence noise after the payload. -/
def fencedPost : List Char := "\n``` Enjoy!".toList

/-- Witness for claim C5 on a markdown-fenced payload. -/
theorem claim_C5_witness :
    tryParseJSON (fencedPre ++ (lbrace :: fencedMid ++ [rbrace]) ++ fencedPost) =
      ParseOut.ok (JsValue.obj [(("week".toList), JsValue.arr [])]) :=
  claim_C5_salvage_recovers fencedPre fencedMid fencedPost
    (JsValue.obj [(("week".toList), JsValue.arr [])])
    (by decide) (by decide) (by decide) (by decide) rfl rfl

/-- One attempt "fails" in the sense of the totality claim: either the
Completion Client call threw (backend error status, network/timeout
fault), or the returned text — including the empty text of an empty
response — does not yield JSON. -/
def attemptFails : ChatOutcome → Bool
  | .error _ => true
  | .ok t =>
    match tryParseJSON t with
    | .fail _ => true
    | .ok _ => false

/-- Claim C1: totality of the orchestrator.  For every POST request,
whenever the credential check fails or both attempts fail (in any of the
failure modes), the handler terminates — it is a total Lean function —
with a 200 response whose body is a schema-valid Plan: a `week` array of
DayPlan entries plus `_meta` Metadata, never an error-only body. -/
theorem claim_C1_orchestrator_totality (env : Env) (event : Event)
    (r1 r2 : ChatOutcome)
    (hm : event.httpMethod = ("POST".toList))
    (hf : jsKeyPresent env.apiKey = false ∨
      (attemptFails r1 = true ∧ attemptFails r2 = true)) :
    (handler env event r1 r2).1.statusCode = 200 ∧
    planDocValid (handler env event r1 r2).1.body = true := by
  cases hb : jsonParse (jsOrStr event.body ([lbrace, rbrace])) with
  | none =>
    unfold handler
    rw [hm, hb]
    exact ⟨rfl, rfl⟩
  | some profile =>
    cases hk : jsKeyPresent env.apiKey with
    | false =>
      unfold handler
      rw [hm]
      simp +decide only [hb, hk, if_false]
      exact ⟨rfl, rfl⟩
    | true =>
      have hff : attemptFails r1 = true ∧ attemptFails r2 = true := by
        rcases hf with hf | hf
        · rw [hk] at hf; cases hf
        · exact hf
      cases hu : jsNewURL (jsOrStr event.rawUrl (("https://x".toList) ++ event.path)) with
      | error e =>
        unfold handler
        rw [hm]
        simp +decide only [hb, hk, hu, if_false]
        exact ⟨rfl, rfl⟩
      | ok url =>
        by_cases htest : searchParamsGet url ("test".toList) = some ("1".toList)
        · unfold handler
          rw [hm]
          simp +decide only [hb, hk, hu, if_pos htest, if_false]
          exact ⟨rfl, rfl⟩
        · rcases hr1 : r1 with e1 | t1
          · unfold handler
            rw [hm]
            simp +decide only [hb, hk, hu, if_neg htest, if_false]
            exact ⟨rfl, rfl⟩
          · rw [hr1] at hff
            cases hp1 : tryParseJSON t1 with
            | ok v1 => simp [attemptFails, hp1] at hff
            | fail raw1 =>
              rcases hr2 : r2 with e2 | t2
              · unfold handler
                rw [hm]
                simp +decide only [hb, hk, hu, if_neg htest, hp1, if_false]
                exact ⟨rfl, rfl⟩
              · rw [hr2] at hff
                cases hp2 : tryParseJSON t2 with
                | ok v2 => simp [attemptFails, hp2] at hff
                | fail raw2 =>
                  unfold handler
                  rw [hm]
                  simp +decide only [hb, hk, hu, if_neg htest, hp1, hp2, if_false]
                  exact ⟨rfl, rfl⟩

/-- Witness for claim C1 at the missing-credential run. -/
theorem claim_C1_witness :
    (handler ⟨none, none⟩ ⟨("POST".toList), some profileC8Text, none, ("/f".toList)⟩
        unusedOutcome unusedOutcome).1.statusCode = 200 ∧
    planDocValid (handler ⟨none, none⟩
        ⟨("POST".toList), some profileC8Text, none, ("/f".toList)⟩
        unusedOutcome unusedOutcome).1.body = true :=
  claim_C1_orchestrator_totality ⟨none, none⟩
    ⟨("POST".toList), some profileC8Text, none, ("/f".toList)⟩
    unusedOutcome unusedOutcome rfl (Or.inl rfl)
